import Mathlib

/-!
Shallow embedding of the Agentic-AI-Proposal pipeline.

The repository wires a LangGraph pipeline
`planner → (ask_user?) → researcher → writer → evaluator → (loop|output)`
over a shared `AgentState` record (src/graph/state.py), with node bodies in
src/agents/*.py, routing and graph construction in src/graph/graph.py, and
the Chainlit resume layer in src/app.py.

LLM and web-search collaborators are external: each node that calls one is
parameterised here by an oracle holding the collaborator's reply, and the
Lean function reproduces exactly what the Python code does with that reply.
Scores (Python floats) are modelled as rationals; none of the verified
properties depend on rounding.
-/

namespace AgenticProposal

/-- src/graph/graph.py line 29: `QUALITY_THRESHOLD = 7.0` (module constant). -/
def QUALITY_THRESHOLD : ℚ := 7

/-- src/graph/graph.py line 28: `MAX_ITERATIONS = int(os.getenv("MAX_ITERATIONS", 5))`;
the default when the environment variable is unset. -/
def MAX_ITERATIONS_DEFAULT : ℕ := 5

/-- The state record of src/graph/state.py (`AgentState` TypedDict), plus the
`questions_for_user` key that the planner writes and the routing reads.
`messages` keeps only the message contents (the `add_messages` channel appends). -/
structure AgentState where
  messages : List String
  task : String
  proposal_type : String
  plan : String
  research_data : String
  search_queries : List String
  draft : String
  critique : String
  score : ℚ
  dimension_scores : List (String × ℚ)
  revision_count : ℕ
  user_feedback : String
  questions_for_user : List String
deriving Repr, DecidableEq

/-- src/agents/models.py `PlannerOutput` (pydantic structured LLM output). -/
structure PlannerOutput where
  proposal_type : String
  key_facts : List String
  research_needed : List String
  proposal_sections : List String
  questions_for_user : List String
deriving Repr, DecidableEq

/-- src/agents/models.py `EvaluationOutput`: the five dimension scores, the
LLM-reported overall score, and the critique. The field descriptions instruct
the model that `overall_score` is the average of the five dimensions, but
nothing in the code validates that. `structureDim` stands for the Python
field `structure` (a Lean keyword). -/
structure EvaluationOutput where
  clarity : ℚ
  persuasiveness : ℚ
  completeness : ℚ
  structureDim : ℚ
  specificity : ℚ
  overall_score : ℚ
  critique : String
deriving Repr, DecidableEq

/-- One Tavily search hit, as consumed by src/agents/researcher.py line 89
(`title`, `content`, `url`). -/
structure SearchResult where
  title : String
  content : String
  url : String
deriving Repr, DecidableEq

/-- External calls a node may perform; used to state that the researcher's
short-circuit path performs none. -/
inductive ExtCall
  | llmQueryExtract
  | tavilySearch (q : String)
  | llmSynthesize
deriving Repr, DecidableEq

/-- src/agents/planner.py `_format_plan`: Markdown plan string. Python's
`"\n".join(...) or default` falls back to the default exactly when the list
is empty. -/
def numberedLines : ℕ → List String → List String
  | _, [] => []
  | i, s :: rest => (toString i ++ ". " ++ s) :: numberedLines (i + 1) rest

def _format_plan (out : PlannerOutput) : String :=
  let facts := if out.key_facts = [] then "- (none provided)"
    else String.intercalate "\n" (out.key_facts.map (fun f => "- " ++ f))
  let research := if out.research_needed = [] then "- (none needed)"
    else String.intercalate "\n" (out.research_needed.map (fun r => "- " ++ r))
  let sections := String.intercalate "\n" (numberedLines 1 out.proposal_sections)
  "### Proposal Type\n" ++ out.proposal_type ++
    "\n\n### Key Facts Provided\n" ++ facts ++
    "\n\n### Research Needed\n" ++ research ++
    "\n\n### Proposal Plan\n" ++ sections

/-- src/agents/planner.py `planner_node`, with the structured LLM reply as
oracle: writes `plan`, `proposal_type`, `questions_for_user`, appends the plan
text as a message. -/
def planner_node (out : PlannerOutput) (s : AgentState) : AgentState :=
  let plan_text := _format_plan out
  { s with
    messages := s.messages ++ [plan_text]
    plan := plan_text
    proposal_type := out.proposal_type
    questions_for_user := out.questions_for_user }

/-- src/agents/researcher.py line 89: formatting of one search hit. -/
def formatResult (r : SearchResult) : String :=
  "**" ++ r.title ++ "**\n" ++ r.content ++ "\nSource: " ++ r.url

/-- src/agents/researcher.py line 93: the annotated entry recorded when the
search call for one query raises. -/
def searchFailMsg (q e : String) : String :=
  "[Search failed for '" ++ q ++ "': " ++ e ++ "]"

/-- The entries contributed by a single query inside `_search_tavily`'s loop:
the formatted hits on success, the single annotated failure entry when the
client raises (the `try`/`except` of lines 85-93). The search collaborator is
the oracle `search`; `.error` is the raised exception's message. -/
def searchEntry (search : String → Except String (List SearchResult)) (q : String) :
    List String :=
  match search q with
  | .ok rs => rs.map formatResult
  | .error e => [searchFailMsg q e]

def searchEntries (search : String → Except String (List SearchResult)) :
    List String → List String
  | [] => []
  | q :: qs => searchEntry search q ++ searchEntries search qs

/-- src/agents/researcher.py `_search_tavily`: runs every query, absorbing
per-query failures, and joins the collected entries (lines 80-95). -/
def _search_tavily (search : String → Except String (List SearchResult))
    (queries : List String) : String :=
  let results := searchEntries search queries
  if results = [] then "No results found."
  else String.intercalate "\n---\n" results

/-- Oracle bundle for the researcher's collaborators: the structured
query-extraction LLM reply, the Tavily client, and the synthesis LLM. -/
structure ResearcherOracle where
  queries : List String
  search : String → Except String (List SearchResult)
  synthesize : String → String

/-- src/agents/researcher.py `researcher_node` (lines 99-137). Returns the
merged state together with the list of external calls performed: the empty
plan branch (lines 104-109) performs none. -/
def researcher_node (o : ResearcherOracle) (s : AgentState) :
    AgentState × List ExtCall :=
  if s.plan = "" then
    ({ s with
        messages := s.messages ++ ["No plan provided to research."]
        research_data := ""
        search_queries := [] }, [])
  else
    let queries := o.queries.take 5
    let raw := _search_tavily o.search queries
    let brief := o.synthesize raw
    ({ s with
        messages := s.messages ++ [brief]
        research_data := brief
        search_queries := queries },
      ExtCall.llmQueryExtract ::
        (queries.map (fun q => ExtCall.tavilySearch q) ++ [ExtCall.llmSynthesize]))

/-- src/agents/writer.py lines 27-31: user feedback, when non-empty (truthy),
is prepended to the research context. -/
def writerFeedbackBlock (s : AgentState) : String :=
  if s.user_feedback = "" then s.research_data
  else "### Additional User Requirements\n" ++ s.user_feedback ++ "\n\n" ++
    s.research_data

/-- src/agents/writer.py lines 27-39: the research context actually handed to
the writer's LLM — user feedback is prepended when non-empty, and the
evaluator critique is prepended when revising. -/
def writer_context (s : AgentState) : String :=
  if 0 < s.revision_count ∧ s.critique ≠ "" then
    "### Evaluator Feedback (Revision " ++ toString s.revision_count ++
      ")\nAddress these issues in this revision:\n" ++ s.critique ++ "\n\n" ++
      writerFeedbackBlock s
  else writerFeedbackBlock s

/-- src/agents/writer.py `writer_node`: the LLM (oracle `write`, a function of
the plan and the composed research context) produces the draft; the merged
update sets `draft` and appends one message — nothing else. -/
def writer_node (write : String → String → String) (s : AgentState) : AgentState :=
  let content := write s.plan (writer_context s)
  { s with
    messages := s.messages ++ ["Draft created (" ++ toString content.length ++ " chars)"]
    draft := content }

/-- src/agents/evaluator.py line 22: the five scoring dimensions. -/
def SCORE_DIMENSIONS : List String :=
  ["Clarity", "Persuasiveness", "Completeness", "Structure", "Specificity"]

/-- src/agents/evaluator.py `evaluator_node` (lines 61-92): copies the LLM's
`overall_score` into `score`, builds `dimension_scores` from the five fields,
and increments `revision_count` by exactly one. -/
def evaluator_node (out : EvaluationOutput) (s : AgentState) : AgentState :=
  { s with
    messages := s.messages ++
      ["Evaluated draft. Score: " ++ toString out.overall_score ++ "/10"]
    score := out.overall_score
    critique := out.critique
    dimension_scores :=
      [("Clarity", out.clarity), ("Persuasiveness", out.persuasiveness),
        ("Completeness", out.completeness), ("Structure", out.structureDim),
        ("Specificity", out.specificity)]
    revision_count := s.revision_count + 1 }

/-- src/agents/output.py `output_node`: writes the draft to disk (a side
effect outside the state) and appends one message; the state is otherwise
unchanged. The timestamped filename is replaced by a fixed path. -/
def output_node (s : AgentState) : AgentState :=
  { s with messages := s.messages ++ ["Saved proposal to outputs/proposal.md"] }

/-- src/graph/graph.py `_ask_user_node` (lines 50-52): the no-op interrupt
point; it returns an empty update. -/
def _ask_user_node (s : AgentState) : AgentState := s

/-- src/graph/graph.py `route_after_planner` (lines 32-37): a non-empty
(truthy) question list routes to `ask_user`, otherwise to `researcher`. -/
def route_after_planner (s : AgentState) : String :=
  match s.questions_for_user with
  | [] => "researcher"
  | _ => "ask_user"

/-- src/graph/graph.py `route_evaluator` (lines 40-47), with the session's
threshold and iteration cap as parameters (`QUALITY_THRESHOLD` and the
env-configured `MAX_ITERATIONS` in the source). -/
def route_evaluator (threshold : ℚ) (maxIter : ℕ) (s : AgentState) : String :=
  if s.score ≥ threshold ∨ s.revision_count ≥ maxIter then "output"
  else "writer"

/-- The arithmetic mean of a dimension-score mapping as the spec states it:
the sum of the five values divided by 5. -/
def dimension_mean (l : List (String × ℚ)) : ℚ :=
  (l.map Prod.snd).sum / 5

/-! ## The execution engine

The graph wiring below (nodes, static edges, conditional edges, interrupt
points) is `build_graph` of src/graph/graph.py. The step semantics of the
compiled graph itself lives in the LangGraph library, outside this
repository; it is modelled from the spec: §4.2 (execute the current stage,
merge its partial update, route on the *post-merge* state, suspend after a
node marked as an interrupt boundary) and §4.3. -/

/-- The node set of `build_graph` (src/graph/graph.py lines 63-68). -/
inductive Node
  | planner
  | ask_user
  | researcher
  | writer
  | evaluator
  | output
deriving Repr, DecidableEq

/-- Resolution of a router's returned name against the conditional-edge
mappings of src/graph/graph.py lines 74-91 (both are identity mappings). -/
def nodeNamed : String → Option Node
  | "planner" => some .planner
  | "ask_user" => some .ask_user
  | "researcher" => some .researcher
  | "writer" => some .writer
  | "evaluator" => some .evaluator
  | "output" => some .output
  | _ => none

/-- Per-session collaborator oracles and session configuration. `write` and
`evalOut` are indexed by the number of earlier invocations of the node, so an
arbitrary sequence of drafts and score sheets can be supplied. -/
structure Oracles where
  planner : PlannerOutput
  researcher : ResearcherOracle
  write : ℕ → String → String → String
  evalOut : ℕ → EvaluationOutput
  threshold : ℚ
  maxIter : ℕ

/-- A point-in-time view of one session: the merged state plus the ordered
log of executed nodes (the history/trace). -/
structure ExecState where
  state : AgentState
  trace : List Node
deriving Repr, DecidableEq

/-- Execute one node against the state and append it to the trace. -/
def execNode (o : Oracles) (n : Node) (es : ExecState) : ExecState :=
  let s' := match n with
    | .planner => planner_node o.planner es.state
    | .ask_user => _ask_user_node es.state
    | .researcher => (researcher_node o.researcher es.state).1
    | .writer => writer_node (o.write (es.trace.count .writer)) es.state
    | .evaluator => evaluator_node (o.evalOut (es.trace.count .evaluator)) es.state
    | .output => output_node es.state
  { state := s', trace := es.trace ++ [n] }

/-- The successor of a node given the post-merge state: the static edges of
src/graph/graph.py lines 84-86 and 93, and the two conditional edges (lines
74-81 and 89-91). `none` is END. -/
def successor (o : Oracles) (n : Node) (s : AgentState) : Option Node :=
  match n with
  | .planner => nodeNamed (route_after_planner s)
  | .ask_user => some .researcher
  | .researcher => some .writer
  | .writer => some .evaluator
  | .evaluator => nodeNamed (route_evaluator o.threshold o.maxIter s)
  | .output => none

/-- src/graph/graph.py line 97: `interrupt_after=["ask_user", "researcher"]`. -/
def interrupt_after : List Node := [.ask_user, .researcher]

/-- Outcome of driving the engine: suspended at an interrupt boundary with a
pending successor, or finished at END. -/
inductive RunOutcome
  | suspended (pending : Node) (es : ExecState)
  | finished (es : ExecState)
deriving Repr, DecidableEq

/-- The execution state carried by an outcome. -/
def outcomeState : RunOutcome → ExecState
  | .suspended _ es => es
  | .finished es => es

/-- Modelled from the spec: the engine loop of §4.2 for the compiled graph
(the LangGraph runtime is outside src/). Starting at `n`, repeatedly execute
the current node, merge, and route on the post-merge state; after a node
marked `interrupt_after`, persist and suspend with the successor pending;
at END, finish. `fuel` bounds the number of steps; `none` means it ran out. -/
def runFrom (o : Oracles) : ℕ → Node → ExecState → Option RunOutcome
  | 0, _, _ => none
  | fuel + 1, n, es =>
    let es' := execNode o n es
    match successor o n es'.state with
    | none => some (.finished es')
    | some next =>
      if n ∈ interrupt_after then some (.suspended next es')
      else runFrom o fuel next es'

/-- src/app.py lines 188-197: the initial state a fresh session is started
with (`inputs` of `main`); keys the dict omits default to empty values. -/
def initial_inputs (task : String) : AgentState :=
  { messages := [task]
    task := task
    proposal_type := ""
    plan := ""
    research_data := ""
    search_queries := []
    draft := ""
    critique := ""
    score := 0
    dimension_scores := []
    revision_count := 0
    user_feedback := ""
    questions_for_user := [] }

/-- src/app.py lines 157-166: the resume applied when the user answers the
planner's questions — appends the answer to `task`, clears
`questions_for_user`, attributed `as_node="ask_user"`. -/
def ask_user_resume (answer : String) (s : AgentState) : AgentState :=
  { s with
    task := s.task ++ "\n\nAdditional info from user: " ++ answer
    questions_for_user := [] }

/-- src/app.py lines 168-185: the resume applied at the post-researcher
checkpoint — stores the (possibly empty) feedback, attributed
`as_node="researcher"`, so execution continues at the writer. -/
def researcher_feedback_resume (feedback : String) (s : AgentState) : AgentState :=
  { s with user_feedback := feedback }

/-- What a resume attempt did: ran the engine, or was silently ignored by the
`is_processing` guard. `rejectedBusy` is the spec's `SessionBusyError`
behaviour, which the source never produces. -/
inductive ResumeOutcome
  | proceeded
  | droppedSilently
  | rejectedBusy
deriving Repr, DecidableEq

/-- src/app.py lines 143-146 composed with a resume: when `is_processing` is
set, `main` returns at once — the patch is not applied and the engine is not
advanced; otherwise the patch is applied and the engine runs from the pending
node. -/
def on_message (is_processing : Bool) (patch : AgentState → AgentState)
    (pending : Node) (o : Oracles) (fuel : ℕ) (es : ExecState) :
    ResumeOutcome × ExecState × Option RunOutcome :=
  if is_processing then (.droppedSilently, es, none)
  else (.proceeded, es, runFrom o fuel pending { es with state := patch es.state })

/-! ## Small-step lemmas for the engine -/

theorem nodeNamed_researcher : nodeNamed "researcher" = some .researcher := rfl

theorem nodeNamed_ask_user : nodeNamed "ask_user" = some .ask_user := rfl

theorem nodeNamed_writer : nodeNamed "writer" = some .writer := rfl

theorem nodeNamed_output : nodeNamed "output" = some .output := rfl

theorem runFrom_writer_step (o : Oracles) (fuel : ℕ) (es : ExecState) :
    runFrom o (fuel + 1) .writer es = runFrom o fuel .evaluator (execNode o .writer es) :=
  rfl

theorem runFrom_evaluator_step (o : Oracles) (fuel : ℕ) (es : ExecState) :
    runFrom o (fuel + 1) .evaluator es =
      match nodeNamed
          (route_evaluator o.threshold o.maxIter (execNode o .evaluator es).state) with
      | none => some (.finished (execNode o .evaluator es))
      | some next => runFrom o fuel next (execNode o .evaluator es) := by
  show (match successor o .evaluator (execNode o .evaluator es).state with
      | none => some (RunOutcome.finished (execNode o .evaluator es))
      | some next =>
        if Node.evaluator ∈ interrupt_after then
          some (RunOutcome.suspended next (execNode o .evaluator es))
        else runFrom o fuel next (execNode o .evaluator es)) = _
  have hmem : (Node.evaluator ∈ interrupt_after) = False := by simp [interrupt_after]
  simp only [successor, hmem, if_false]

theorem runFrom_evaluator_step_output (o : Oracles) (fuel : ℕ) (es : ExecState)
    (hc : (execNode o .evaluator es).state.score ≥ o.threshold ∨
      (execNode o .evaluator es).state.revision_count ≥ o.maxIter) :
    runFrom o (fuel + 1) .evaluator es =
      runFrom o fuel .output (execNode o .evaluator es) := by
  rw [runFrom_evaluator_step, route_evaluator, if_pos hc, nodeNamed_output]

theorem runFrom_evaluator_step_writer (o : Oracles) (fuel : ℕ) (es : ExecState)
    (hc : ¬((execNode o .evaluator es).state.score ≥ o.threshold ∨
      (execNode o .evaluator es).state.revision_count ≥ o.maxIter)) :
    runFrom o (fuel + 1) .evaluator es =
      runFrom o fuel .writer (execNode o .evaluator es) := by
  rw [runFrom_evaluator_step, route_evaluator, if_neg hc, nodeNamed_writer]

theorem runFrom_output_step (o : Oracles) (fuel : ℕ) (es : ExecState) :
    runFrom o (fuel + 1) .output es = some (.finished (execNode o .output es)) :=
  rfl

theorem runFrom_researcher_step (o : Oracles) (fuel : ℕ) (es : ExecState) :
    runFrom o (fuel + 1) .researcher es =
      some (.suspended .writer (execNode o .researcher es)) :=
  rfl

theorem runFrom_ask_user_step (o : Oracles) (fuel : ℕ) (es : ExecState) :
    runFrom o (fuel + 1) .ask_user es =
      some (.suspended .researcher (execNode o .ask_user es)) :=
  rfl

theorem runFrom_planner_step (o : Oracles) (fuel : ℕ) (es : ExecState) :
    runFrom o (fuel + 1) .planner es =
      match nodeNamed (route_after_planner (execNode o .planner es).state) with
      | none => some (.finished (execNode o .planner es))
      | some next => runFrom o fuel next (execNode o .planner es) := by
  show (match successor o .planner (execNode o .planner es).state with
      | none => some (RunOutcome.finished (execNode o .planner es))
      | some next =>
        if Node.planner ∈ interrupt_after then
          some (RunOutcome.suspended next (execNode o .planner es))
        else runFrom o fuel next (execNode o .planner es)) = _
  have hmem : (Node.planner ∈ interrupt_after) = False := by simp [interrupt_after]
  simp only [successor, hmem, if_false]

theorem execNode_trace (o : Oracles) (n : Node) (es : ExecState) :
    (execNode o n es).trace = es.trace ++ [n] := rfl

theorem execNode_writer_rc (o : Oracles) (es : ExecState) :
    (execNode o .writer es).state.revision_count = es.state.revision_count := rfl

theorem execNode_evaluator_rc (o : Oracles) (es : ExecState) :
    (execNode o .evaluator es).state.revision_count = es.state.revision_count + 1 := rfl

theorem execNode_planner_questions (o : Oracles) (es : ExecState) :
    (execNode o .planner es).state.questions_for_user =
      o.planner.questions_for_user := rfl

theorem runFrom_planner_step_questions (o : Oracles) (fuel : ℕ) (es : ExecState)
    (hq : o.planner.questions_for_user ≠ []) :
    runFrom o (fuel + 1) .planner es =
      runFrom o fuel .ask_user (execNode o .planner es) := by
  obtain ⟨q, qs, hcons⟩ := List.exists_cons_of_ne_nil hq
  have h1 : (execNode o .planner es).state.questions_for_user = q :: qs := by
    rw [execNode_planner_questions, hcons]
  have h2 : route_after_planner (execNode o .planner es).state = "ask_user" := by
    simp [route_after_planner, h1]
  rw [runFrom_planner_step, h2, nodeNamed_ask_user]

theorem runFrom_planner_step_no_questions (o : Oracles) (fuel : ℕ) (es : ExecState)
    (hq : o.planner.questions_for_user = []) :
    runFrom o (fuel + 1) .planner es =
      runFrom o fuel .researcher (execNode o .planner es) := by
  have h1 : (execNode o .planner es).state.questions_for_user = [] := by
    rw [execNode_planner_questions, hq]
  have h2 : route_after_planner (execNode o .planner es).state = "researcher" := by
    simp [route_after_planner, h1]
  rw [runFrom_planner_step, h2, nodeNamed_researcher]

/-- From the revision loop (writer, evaluator, output) the `ask_user` node is
unreachable: none of those nodes routes to it, so any completed or suspended
continuation leaves the `ask_user` count of the trace unchanged. -/
theorem runFrom_loop_no_ask_user (o : Oracles) :
    ∀ (fuel : ℕ) (n : Node) (es : ExecState) (out : RunOutcome),
      (n = .writer ∨ n = .evaluator ∨ n = .output) →
      runFrom o fuel n es = some out →
      (outcomeState out).trace.count .ask_user = es.trace.count .ask_user := by
  intro fuel
  induction fuel with
  | zero => intro n es out _ h; exact absurd h (by simp [runFrom])
  | succ fuel ih =>
    intro n es out hn hrun
    have htr : ∀ m : Node, m ≠ .ask_user →
        (execNode o m es).trace.count .ask_user = es.trace.count .ask_user := by
      intro m hm
      rw [execNode_trace, List.count_append]
      cases m <;> simp_all
    rcases hn with h | h | h
    · subst h
      rw [runFrom_writer_step] at hrun
      have := ih .evaluator (execNode o .writer es) out (by simp) hrun
      rw [this, htr .writer (by simp)]
    · subst h
      by_cases hc : (execNode o .evaluator es).state.score ≥ o.threshold ∨
          (execNode o .evaluator es).state.revision_count ≥ o.maxIter
      · rw [runFrom_evaluator_step_output o fuel es hc] at hrun
        have := ih .output (execNode o .evaluator es) out (by simp) hrun
        rw [this, htr .evaluator (by simp)]
      · rw [runFrom_evaluator_step_writer o fuel es hc] at hrun
        have := ih .writer (execNode o .evaluator es) out (by simp) hrun
        rw [this, htr .evaluator (by simp)]
    · subst h
      rw [runFrom_output_step] at hrun
      cases hrun
      rw [outcomeState, htr .output (by simp)]

/-- The revision loop terminates and its evaluator-pass count is bounded:
entering at the writer with `revision_count = r < maxIter` and enough fuel,
the run reaches END having executed the output node exactly once, with at
most `maxIter - r` further evaluator passes. -/
theorem runFrom_writer_loop (o : Oracles) :
    ∀ (fuel r : ℕ) (es : ExecState),
      es.state.revision_count = r → r < o.maxIter →
      2 * (o.maxIter - r) + 1 ≤ fuel →
      ∃ es', runFrom o fuel .writer es = some (.finished es') ∧
        es'.trace.count .evaluator + r ≤ es.trace.count .evaluator + o.maxIter ∧
        es'.trace.count .output = es.trace.count .output + 1 := by
  intro fuel
  induction fuel using Nat.strong_induction_on with
  | _ fuel ih =>
    intro r es hr hlt hf
    obtain ⟨f, rfl⟩ : ∃ f, fuel = f + 2 := ⟨fuel - 2, by omega⟩
    set es1 := execNode o .writer es with hes1
    set es2 := execNode o .evaluator es1 with hes2
    have hrc2 : es2.state.revision_count = r + 1 := by
      rw [hes2, execNode_evaluator_rc, hes1, execNode_writer_rc, hr]
    have hcount1 : es1.trace.count .evaluator = es.trace.count .evaluator := by
      rw [hes1, execNode_trace, List.count_append]; simp
    have hcount2 : es2.trace.count .evaluator = es.trace.count .evaluator + 1 := by
      rw [hes2, execNode_trace, List.count_append, hcount1]; simp
    have hout1 : es1.trace.count .output = es.trace.count .output := by
      rw [hes1, execNode_trace, List.count_append]; simp
    have hout2 : es2.trace.count .output = es.trace.count .output := by
      rw [hes2, execNode_trace, List.count_append, hout1]; simp
    rw [show f + 2 = (f + 1) + 1 from rfl, runFrom_writer_step, ← hes1]
    by_cases hc : es2.state.score ≥ o.threshold ∨ es2.state.revision_count ≥ o.maxIter
    · rw [runFrom_evaluator_step_output o f es1 (hes2 ▸ hc)]
      obtain ⟨f', rfl⟩ : ∃ f', f = f' + 1 := ⟨f - 1, by omega⟩
      rw [← hes2, runFrom_output_step]
      refine ⟨execNode o .output es2, rfl, ?_, ?_⟩
      · rw [execNode_trace, List.count_append, hcount2]; simp; omega
      · rw [execNode_trace, List.count_append, hout2]; simp
    · rw [runFrom_evaluator_step_writer o f es1 (hes2 ▸ hc), ← hes2]
      have hlt2 : r + 1 < o.maxIter := by
        rw [hrc2] at hc; push_neg at hc; exact hc.2
      obtain ⟨es', hrun, hcnt, hout⟩ :=
        ih f (by omega) (r + 1) es2 hrc2 hlt2 (by omega)
      exact ⟨es', hrun, by omega, by omega⟩

/-! ## Shared concrete fixtures -/

/-- A planner reply with no questions and a minimal plan. -/
def trivialPlanner : PlannerOutput :=
  { proposal_type := "General"
    key_facts := []
    research_needed := []
    proposal_sections := []
    questions_for_user := [] }

/-- A researcher oracle whose collaborators all succeed. -/
def trivialResearcher : ResearcherOracle :=
  { queries := []
    search := fun _ => .ok []
    synthesize := fun _ => "Research brief" }

/-- A uniformly sub-threshold score sheet (the evaluator never passes). -/
def low_eval : EvaluationOutput :=
  { clarity := 2, persuasiveness := 2, completeness := 2, structureDim := 2,
    specificity := 2, overall_score := 2, critique := "Improve content." }

/-- A session whose scores never reach the threshold, with the source's
default threshold and a cap of 3. -/
def loop_oracles : Oracles :=
  { planner := trivialPlanner
    researcher := trivialResearcher
    write := fun _ _ _ => "Draft"
    evalOut := fun _ => low_eval
    threshold := QUALITY_THRESHOLD
    maxIter := 3 }

/-! ## C1 — termination of the revision loop -/

/-- C1: for every score sequence, a session entering the revision loop at the
writer with `revision_count = 0` runs to END (executing the output node
exactly once) with at most `maxIter` evaluator passes: `evaluator_node`
increments `revision_count` by one per pass, and `route_evaluator` forces
"output" as soon as `revision_count ≥ maxIter` (or the score passes). -/
theorem revision_loop_terminates (o : Oracles) (es : ExecState) (fuel : ℕ)
    (h0 : es.state.revision_count = 0) (hm : 1 ≤ o.maxIter)
    (hf : 2 * o.maxIter + 1 ≤ fuel) :
    ∃ es', runFrom o fuel .writer es = some (.finished es') ∧
      es'.trace.count .evaluator ≤ es.trace.count .evaluator + o.maxIter ∧
      es'.trace.count .output = es.trace.count .output + 1 := by
  obtain ⟨es', h1, h2, h3⟩ :=
    runFrom_writer_loop o fuel 0 es h0 (by omega) (by omega)
  exact ⟨es', h1, by omega, h3⟩

/-- Witness for C1 at a concrete session (cap 3, scores always 2). -/
theorem revision_loop_terminates_witness :
    ∃ es', runFrom loop_oracles 7 .writer ⟨initial_inputs "Write a proposal", []⟩ =
      some (.finished es') ∧
      es'.trace.count .evaluator ≤
        (⟨initial_inputs "Write a proposal", []⟩ : ExecState).trace.count .evaluator +
          loop_oracles.maxIter ∧
      es'.trace.count .output =
        (⟨initial_inputs "Write a proposal", []⟩ : ExecState).trace.count .output + 1 :=
  revision_loop_terminates loop_oracles ⟨initial_inputs "Write a proposal", []⟩ 7 rfl
    (by decide) (by decide)

/-! ## C2 — the merged score versus the dimension mean -/

/-- The score sheet used by the repository's own test
(src/tests/test_evaluator.py `SAMPLE_EVALUATION`): dimensions 8,7,9,8,7
(mean 7.8) but `overall_score = 8.5`, which the test asserts is copied
verbatim into `score`. -/
def sample_evaluation : EvaluationOutput :=
  { clarity := 8, persuasiveness := 7, completeness := 9, structureDim := 8,
    specificity := 7, overall_score := mkRat 17 2,
    critique := "1. Make the executive summary more punchy." }

/-- C2 counterexample: after the evaluator's update is merged, both `score`
and `dimension_scores` are present, yet `score` (= the LLM's `overall_score`,
8.5) differs from the arithmetic mean of the five dimension scores (7.8):
the code never recomputes the mean. -/
theorem evaluator_score_not_mean_cex :
    (evaluator_node sample_evaluation (initial_inputs "Test task")).score ≠
      dimension_mean
        (evaluator_node sample_evaluation (initial_inputs "Test task")).dimension_scores := by
  simp only [evaluator_node, sample_evaluation, dimension_mean, List.map_cons,
    List.map_nil, List.sum_cons, List.sum_nil]
  norm_num [Rat.mkRat_eq_div]

/-- C2 amended: the merged `score` is the LLM-reported `overall_score`
verbatim; it equals the mean of the merged dimension scores exactly when the
structured output already satisfies the instructed (but unenforced)
invariant `overall_score = (sum of the five dimensions) / 5`. -/
theorem evaluator_score_mean_of_consistent_output (out : EvaluationOutput)
    (s : AgentState)
    (h : out.overall_score = (out.clarity + out.persuasiveness + out.completeness +
      out.structureDim + out.specificity) / 5) :
    (evaluator_node out s).score = out.overall_score ∧
    (evaluator_node out s).score =
      dimension_mean (evaluator_node out s).dimension_scores := by
  refine ⟨rfl, ?_⟩
  show out.overall_score = dimension_mean _
  rw [h]
  simp [dimension_mean, evaluator_node]
  ring

/-- A score sheet satisfying the instructed invariant. -/
def consistent_eval : EvaluationOutput :=
  { clarity := 9, persuasiveness := 9, completeness := 9, structureDim := 9,
    specificity := 9, overall_score := 9, critique := "" }

/-- Witness for the amended C2 at a concrete consistent score sheet. -/
theorem evaluator_score_mean_of_consistent_output_witness :
    (evaluator_node consistent_eval (initial_inputs "Test task")).score =
      consistent_eval.overall_score ∧
    (evaluator_node consistent_eval (initial_inputs "Test task")).score =
      dimension_mean
        (evaluator_node consistent_eval (initial_inputs "Test task")).dimension_scores :=
  evaluator_score_mean_of_consistent_output consistent_eval
    (initial_inputs "Test task") (by norm_num [consistent_eval])

/-! ## C3 — immutability of `task` -/

/-- C3 counterexample: the resume that answers the planner's questions
(src/app.py lines 157-166) rewrites `task` by appending the user's answer,
so `task` is mutated after session creation. -/
theorem task_mutated_by_ask_user_resume_cex :
    (ask_user_resume "Budget is 50k"
        (initial_inputs "Write a proposal")).task ≠
      (initial_inputs "Write a proposal").task := by
  decide

/-- C3 amended: no stage execution ever writes `task` — every node function
and the researcher-feedback resume leave it unchanged — and the single
exception is the ask_user resume, which appends the user's answer to it. -/
theorem task_unchanged_by_stages :
    (∀ out s, (planner_node out s).task = s.task) ∧
    (∀ o s, ((researcher_node o s).1).task = s.task) ∧
    (∀ w s, (writer_node w s).task = s.task) ∧
    (∀ out s, (evaluator_node out s).task = s.task) ∧
    (∀ s, (output_node s).task = s.task) ∧
    (∀ s, (_ask_user_node s).task = s.task) ∧
    (∀ fb s, (researcher_feedback_resume fb s).task = s.task) ∧
    (∀ ans s, (ask_user_resume ans s).task =
      s.task ++ "\n\nAdditional info from user: " ++ ans) := by
  refine ⟨fun _ _ => rfl, fun o s => ?_, fun _ _ => rfl, fun _ _ => rfl,
    fun _ => rfl, fun _ => rfl, fun _ _ => rfl, fun _ _ => rfl⟩
  by_cases h : s.plan = "" <;> simp [researcher_node, h]

/-! ## C4 — the ask_user resume contract -/

/-- C4: the resume at the ask_user boundary (a) merges the external answer
into `task`, (b) clears `questions_for_user`, and (c) is attributed to the
`ask_user` node, whose successor is `researcher` — indeed the engine
suspended at ask_user records `researcher` as the pending node, so routing
continues unambiguously there. -/
theorem ask_user_resume_contract :
    (∀ ans s, (ask_user_resume ans s).task =
      s.task ++ "\n\nAdditional info from user: " ++ ans) ∧
    (∀ ans s, (ask_user_resume ans s).questions_for_user = []) ∧
    (∀ o s, successor o .ask_user s = some .researcher) ∧
    (∀ o fuel es, runFrom o (fuel + 1) .ask_user es =
      some (.suspended .researcher (execNode o .ask_user es))) :=
  ⟨fun _ _ => rfl, fun _ _ => rfl, fun _ _ => rfl,
    fun o fuel es => runFrom_ask_user_step o fuel es⟩

/-! ## C5 — interrupt gating on pending questions -/

/-- C5: after the planner, a non-empty question list routes the run through
`ask_user`, where the engine suspends (pending `researcher`); an empty list
routes directly to `researcher` (suspending at the post-researcher boundary)
and `ask_user` is executed neither then nor anywhere in the rest of the run
(the revision loop never reaches it). -/
theorem interrupt_gating (o : Oracles) (es : ExecState) (fuel : ℕ) (hf : 2 ≤ fuel) :
    (o.planner.questions_for_user ≠ [] →
      ∃ es', runFrom o fuel .planner es = some (.suspended .researcher es') ∧
        es'.trace = es.trace ++ [.planner, .ask_user]) ∧
    (o.planner.questions_for_user = [] →
      ∃ es', runFrom o fuel .planner es = some (.suspended .writer es') ∧
        es'.trace = es.trace ++ [.planner, .researcher]) ∧
    (∀ (fuel' : ℕ) (es₀ : ExecState) (out : RunOutcome),
      runFrom o fuel' .writer es₀ = some out →
      (outcomeState out).trace.count .ask_user = es₀.trace.count .ask_user) := by
  obtain ⟨f, rfl⟩ : ∃ f, fuel = f + 2 := ⟨fuel - 2, by omega⟩
  refine ⟨fun hq => ?_, fun hq => ?_,
    fun fuel' es₀ out h =>
      runFrom_loop_no_ask_user o fuel' .writer es₀ out (by simp) h⟩
  · rw [show f + 2 = (f + 1) + 1 from rfl,
      runFrom_planner_step_questions o (f + 1) es hq, runFrom_ask_user_step]
    exact ⟨_, rfl, by simp [execNode_trace]⟩
  · rw [show f + 2 = (f + 1) + 1 from rfl,
      runFrom_planner_step_no_questions o (f + 1) es hq, runFrom_researcher_step]
    exact ⟨_, rfl, by simp [execNode_trace]⟩

/-- A session whose planner does ask a question. -/
def gating_oracles : Oracles :=
  { loop_oracles with
    planner := { trivialPlanner with
      questions_for_user := ["What is your company name?"] } }

/-- Witness for C5 at a concrete session with one pending question. -/
theorem interrupt_gating_witness :
    ∃ es', runFrom gating_oracles 2 .planner ⟨initial_inputs "Write a proposal", []⟩ =
      some (.suspended .researcher es') ∧
      es'.trace = ([] : List Node) ++ [.planner, .ask_user] :=
  (interrupt_gating gating_oracles ⟨initial_inputs "Write a proposal", []⟩ 2
    (by decide)).1 (by decide)

/-! ## C6 — the concrete two-pass scenario -/

/-- The pending node of a suspended run. -/
def outcomePending : Option RunOutcome → Option Node
  | some (.suspended n _) => some n
  | _ => none

/-- The execution state of a finished run. -/
def outcomeFinal : Option RunOutcome → Option ExecState
  | some (.finished es) => some es
  | _ => none

/-- Score sheets for the scenario of spec §8: 5.0 on the first pass, 9.5 on
the second. -/
def scenario_eval : ℕ → EvaluationOutput
  | 0 =>
    { clarity := 5, persuasiveness := 5, completeness := 5, structureDim := 5,
      specificity := 5, overall_score := 5, critique := "Improve content." }
  | _ =>
    { clarity := mkRat 19 2, persuasiveness := mkRat 19 2,
      completeness := mkRat 19 2, structureDim := mkRat 19 2,
      specificity := mkRat 19 2, overall_score := mkRat 19 2, critique := "" }

/-- The spec §8 scenario session: threshold 9.0, cap 3, no planner
questions. -/
def scenario_oracles : Oracles :=
  { planner :=
      { proposal_type := "Business"
        key_facts := ["Client: TestCo"]
        research_needed := ["TestCo background"]
        proposal_sections := ["Executive Summary", "Solution"]
        questions_for_user := [] }
    researcher :=
      { queries := ["TestCo background"]
        search := fun _ => .ok
          [{ title := "TestCo", content := "Raw results", url := "example.com" }]
        synthesize := fun _ => "Research brief" }
    write := fun n _ _ => "Draft V" ++ toString (n + 1)
    evalOut := scenario_eval
    threshold := 9
    maxIter := 3 }

/-- First invocation: fresh session, runs to the post-researcher interrupt. -/
def scenario_start : Option RunOutcome :=
  runFrom scenario_oracles 10 .planner ⟨initial_inputs "Write a proposal", []⟩

/-- Resume with the empty "Proceed" feedback from the pending node. -/
def scenario_resumed : Option RunOutcome :=
  match scenario_start with
  | some (.suspended n es) =>
    runFrom scenario_oracles 10 n
      { es with state := researcher_feedback_resume "" es.state }
  | x => x

/-- C6: in the scenario (threshold 9.0, cap 3, scores 5.0 then 9.5), the
fresh run suspends pending the writer; after the resume the session finishes
with `revision_count = 2`, the writer executed exactly twice, and the final
route taken to the terminal `output` node (the trace ends with
evaluator → output). -/
theorem concrete_scenario_two_passes :
    outcomePending scenario_start = some .writer ∧
    (outcomeFinal scenario_resumed).map (fun es => es.state.revision_count) = some 2 ∧
    (outcomeFinal scenario_resumed).map (fun es => es.trace) =
      some [.planner, .researcher, .writer, .evaluator, .writer, .evaluator, .output] ∧
    (outcomeFinal scenario_resumed).map (fun es => es.trace.count .writer) = some 2 ∧
    (outcomeFinal scenario_resumed).map (fun es => es.state.score) =
      some (mkRat 19 2) :=
  ⟨rfl, rfl, rfl, rfl, rfl⟩

/-! ## C7 — concurrent resume handling -/

/-- C7 counterexample: a message arriving while `is_processing` is set is
silently dropped (`main` returns at once): the observed outcome is
`droppedSilently`, not the `rejectedBusy` (SessionBusyError) behaviour the
claim requires — no such error exists anywhere in the source. -/
theorem busy_resume_not_rejected_cex :
    (on_message true (researcher_feedback_resume "fix the tone") .writer
        loop_oracles 10 ⟨initial_inputs "Write a proposal", []⟩).1 =
      .droppedSilently ∧
    (on_message true (researcher_feedback_resume "fix the tone") .writer
        loop_oracles 10 ⟨initial_inputs "Write a proposal", []⟩).1 ≠
      .rejectedBusy :=
  ⟨rfl, by decide⟩

/-- C7 amended: while `is_processing` is set, an incoming resume is silently
ignored — the session state is untouched and the engine is not advanced, but
no error is surfaced to the caller; when the flag is clear, the resume patch
is applied and the engine runs from the pending node. -/
theorem busy_resume_dropped_silently (patch : AgentState → AgentState)
    (pending : Node) (o : Oracles) (fuel : ℕ) (es : ExecState) :
    on_message true patch pending o fuel es = (.droppedSilently, es, none) ∧
    (on_message false patch pending o fuel es).1 = .proceeded ∧
    (on_message false patch pending o fuel es).2.2 =
      runFrom o fuel pending { es with state := patch es.state } :=
  ⟨rfl, rfl, rfl⟩

/-! ## C8 — user_feedback is not cleared by the writer -/

/-- C8 counterexample: after the writer's update is merged, `user_feedback`
is still present (the writer's update carries only `messages` and `draft`),
and the context of the pass still embeds the feedback — so a later pass
through the writer observes the old feedback again. -/
theorem user_feedback_not_cleared_cex :
    ((writer_node (fun _ _ => "Draft V1")
        { initial_inputs "Write a proposal" with
            user_feedback := "Use blue branding"
            research_data := "R" }).user_feedback ≠ "") ∧
    writer_context (writer_node (fun _ _ => "Draft V1")
        { initial_inputs "Write a proposal" with
            user_feedback := "Use blue branding"
            research_data := "R" }) =
      "### Additional User Requirements\nUse blue branding\n\nR" :=
  ⟨by decide, rfl⟩

/-- C8 amended: the writer reads `user_feedback` and prepends it to the
research context handed to its LLM, but neither the writer's nor the
evaluator's merged update clears it — after a full writer → evaluator pass
the same feedback is still in the state, and the next writer pass embeds it
in its context again. It is only overwritten by the next resume. -/
theorem user_feedback_persists_after_writer (w : String → String → String)
    (ev : EvaluationOutput) (s : AgentState) (h : s.user_feedback ≠ "") :
    (writer_node w s).user_feedback = s.user_feedback ∧
    (evaluator_node ev (writer_node w s)).user_feedback = s.user_feedback ∧
    ∃ pre, writer_context (evaluator_node ev (writer_node w s)) =
      pre ++ "### Additional User Requirements\n" ++ s.user_feedback ++ "\n\n" ++
        s.research_data := by
  refine ⟨rfl, rfl, ?_⟩
  have hfb : writerFeedbackBlock (evaluator_node ev (writer_node w s)) =
      "### Additional User Requirements\n" ++ s.user_feedback ++ "\n\n" ++
        s.research_data := by
    rw [writerFeedbackBlock]
    rw [show (evaluator_node ev (writer_node w s)).user_feedback = s.user_feedback
      from rfl]
    rw [if_neg h]
    rfl
  by_cases hc : ev.critique = ""
  · refine ⟨"", ?_⟩
    rw [writer_context, if_neg (by simp [evaluator_node, hc]), hfb]
    rfl
  · refine ⟨"### Evaluator Feedback (Revision " ++ toString (s.revision_count + 1) ++
      ")\nAddress these issues in this revision:\n" ++ ev.critique ++ "\n\n", ?_⟩
    rw [writer_context, if_pos ⟨Nat.succ_pos _, hc⟩, hfb]
    simp only [String.append_assoc]
    rfl

/-- Witness for the amended C8 at concrete feedback. -/
theorem user_feedback_persists_after_writer_witness :
    (writer_node (fun _ _ => "Draft V1")
        { initial_inputs "t" with user_feedback := "X" }).user_feedback =
      ({ initial_inputs "t" with user_feedback := "X" } : AgentState).user_feedback ∧
    (evaluator_node low_eval (writer_node (fun _ _ => "Draft V1")
        { initial_inputs "t" with user_feedback := "X" })).user_feedback =
      ({ initial_inputs "t" with user_feedback := "X" } : AgentState).user_feedback ∧
    ∃ pre, writer_context (evaluator_node low_eval (writer_node (fun _ _ => "Draft V1")
        { initial_inputs "t" with user_feedback := "X" })) =
      pre ++ "### Additional User Requirements\n" ++
        ({ initial_inputs "t" with user_feedback := "X" } : AgentState).user_feedback ++
        "\n\n" ++
        ({ initial_inputs "t" with user_feedback := "X" } : AgentState).research_data :=
  user_feedback_persists_after_writer (fun _ _ => "Draft V1") low_eval
    { initial_inputs "t" with user_feedback := "X" } (by decide)

/-! ## C9 — the researcher absorbs per-query search failures -/

/-- Entries contributed by a member query are in the collected entry list. -/
theorem mem_searchEntries_of_mem
    (search : String → Except String (List SearchResult)) {q : String}
    {qs : List String} (hq : q ∈ qs) {x : String}
    (hx : x ∈ searchEntry search q) : x ∈ searchEntries search qs := by
  induction qs with
  | nil => cases hq
  | cons a as ih =>
    rw [searchEntries]
    rcases List.mem_cons.mp hq with h | h
    · subst h; exact List.mem_append_left _ hx
    · exact List.mem_append_right _ (ih h)

/-- C9: if the search collaborator raises on one query, `_search_tavily`
does not propagate the failure: the failure is recorded as the annotated
`[Search failed for ...]` entry, the function still returns the joined
entry list (not the empty-results fallback), and every hit of every
successful query is still among the entries. -/
theorem search_tavily_absorbs_failures
    (search : String → Except String (List SearchResult)) (qs : List String)
    (q e : String) (hq : q ∈ qs) (he : search q = .error e) :
    searchFailMsg q e ∈ searchEntries search qs ∧
    _search_tavily search qs =
      String.intercalate "\n---\n" (searchEntries search qs) ∧
    ∀ q2 rs, q2 ∈ qs → search q2 = .ok rs →
      ∀ r ∈ rs, formatResult r ∈ searchEntries search qs := by
  have hmem : searchFailMsg q e ∈ searchEntries search qs :=
    mem_searchEntries_of_mem search hq
      (by rw [searchEntry, he]; exact List.mem_singleton.mpr rfl)
  refine ⟨hmem, ?_, ?_⟩
  · rw [_search_tavily]
    simp only [List.ne_nil_of_mem hmem, if_false]
  · intro q2 rs hq2 hok r hr
    exact mem_searchEntries_of_mem search hq2
      (by rw [searchEntry, hok]; exact List.mem_map_of_mem _ hr)

/-- A search collaborator that raises on one of two queries. -/
def acme_hit : SearchResult :=
  { title := "Acme Corp Profile", content := "Acme Corp is...",
    url := "example.com/acme" }

def failing_search : String → Except String (List SearchResult) :=
  fun q => if q = "bad query" then .error "API error" else .ok [acme_hit]

/-- Witness for C9 at a concrete query list with one failing query. -/
theorem search_tavily_absorbs_failures_witness :
    searchFailMsg "bad query" "API error" ∈
      searchEntries failing_search ["good query", "bad query"] ∧
    _search_tavily failing_search ["good query", "bad query"] =
      String.intercalate "\n---\n"
        (searchEntries failing_search ["good query", "bad query"]) ∧
    ∀ q2 rs, q2 ∈ ["good query", "bad query"] → failing_search q2 = .ok rs →
      ∀ r ∈ rs, formatResult r ∈ searchEntries failing_search ["good query", "bad query"] :=
  search_tavily_absorbs_failures failing_search ["good query", "bad query"]
    "bad query" "API error" (by decide) rfl

/-! ## C10 — the researcher's empty-plan short-circuit -/

/-- C10: with an absent/empty plan, `researcher_node` returns the
short-circuit update — `research_data` empty, `search_queries` empty, only
the "No plan provided" message appended — and performs no external call at
all (no query-extraction LLM call, no search, no synthesis call). -/
theorem researcher_short_circuits (o : ResearcherOracle) (s : AgentState)
    (h : s.plan = "") :
    (researcher_node o s).1.research_data = "" ∧
    (researcher_node o s).1.search_queries = [] ∧
    (researcher_node o s).2 = [] ∧
    (researcher_node o s).1.messages = s.messages ++ ["No plan provided to research."] := by
  simp [researcher_node, h]

/-- Witness for C10: a fresh session state has an empty plan. -/
theorem researcher_short_circuits_witness :
    (researcher_node trivialResearcher (initial_inputs "Write a proposal")).1.research_data = "" ∧
    (researcher_node trivialResearcher (initial_inputs "Write a proposal")).1.search_queries = [] ∧
    (researcher_node trivialResearcher (initial_inputs "Write a proposal")).2 = [] ∧
    (researcher_node trivialResearcher (initial_inputs "Write a proposal")).1.messages =
      (initial_inputs "Write a proposal").messages ++ ["No plan provided to research."] :=
  researcher_short_circuits trivialResearcher (initial_inputs "Write a proposal") rfl

end AgenticProposal
